import Mathlib

/-!
Verification of the ML Diagnostic Engine's core subsystem: the Session State
Machine, the Verdict Synthesizer, and the report view's severity styling.

The Session State Machine, Diagnostic Profiler, Risk Classifier and Verdict
Synthesizer live in the backend modules (`Backend/session_engine.py`,
`Backend/states.py`, `engine/Layer_1` per the README), which are not among the
provided sources; only the README and the Next.js frontend callers are.  Those
components are therefore modelled from the spec, as marked on each definition.
The report view's `statusColor` helper is translated directly from
`src/frontend/apps/web/src/app/diagnostics/layer1-report/page.tsx`.
-/

namespace MLDiag

/-- Modelled from the spec: severity levels of a diagnostic Finding
(spec section 3): SAFE | WARNING | CRITICAL. -/
inductive Severity where
  | SAFE
  | WARNING
  | CRITICAL
deriving DecidableEq, Repr

/-- Modelled from the spec: the permission Verdict
(spec section 3): BLOCKED | CONSTRAINED | ALLOWED. -/
inductive Verdict where
  | BLOCKED
  | CONSTRAINED
  | ALLOWED
deriving DecidableEq, Repr

/-- Modelled from the spec: one diagnostic result (spec section 3, Finding). -/
structure Finding where
  check_name : String
  category : String
  severity : Severity
  metric : Rat
  affected_columns : List String
  details : String
deriving DecidableEq, Repr

/-- Modelled from the spec: an immutable reference to a validated tabular
dataset (spec section 3, Dataset Handle); the column names form the schema
against which a target column is validated. -/
structure DatasetHandle where
  columns : List String
  row_count : Nat
  col_count : Nat
  memory_mb : Rat
deriving DecidableEq, Repr

/-- Modelled from the spec: the session states, in strict forward order
(spec section 4.1).  This is a closed enumeration: these six constructors are
the only states. -/
inductive SessState where
  | NO_SESSION
  | DATA_LOADED
  | TARGET_SELECTED
  | DIAGNOSTICS_RUNNING
  | MODEL_DECIDED
  | MODEL_EXECUTION
deriving DecidableEq, Repr

/-- Position of a state in the strict forward order
NO_SESSION < DATA_LOADED < TARGET_SELECTED < DIAGNOSTICS_RUNNING <
MODEL_DECIDED < MODEL_EXECUTION. -/
def SessState.idx : SessState → Nat
  | SessState.NO_SESSION => 0
  | SessState.DATA_LOADED => 1
  | SessState.TARGET_SELECTED => 2
  | SessState.DIAGNOSTICS_RUNNING => 3
  | SessState.MODEL_DECIDED => 4
  | SessState.MODEL_EXECUTION => 5

/-- Modelled from the spec: the error kinds of section 7, plus the
"no report yet" failure of the report-fetch row in the section 6 table.
`InvalidStateError` names the current state and the required state(s). -/
inductive SessionError where
  | InvalidStateError (current : SessState) (required : List SessState)
  | UnknownColumnError (column : String)
  | ProfilingFailure
  | PermissionDeniedError
  | NoReportYet
deriving DecidableEq, Repr

/-- Modelled from the spec: the Session, the sole mutable root
(spec section 3). -/
structure Session where
  state : SessState
  dataset : Option DatasetHandle
  target_column : Option String
  findings : List Finding
  verdict : Option Verdict
deriving DecidableEq, Repr

/-- The initial Session: state NO_SESSION with every field unset. -/
def initialSession : Session :=
  { state := SessState.NO_SESSION
    dataset := none
    target_column := none
    findings := []
    verdict := none }

/-- Modelled from the spec: the Verdict Synthesizer (spec section 4.4).
Rule, evaluated in strict priority order: any CRITICAL Finding gives BLOCKED;
else any WARNING Finding gives CONSTRAINED; else ALLOWED. -/
def synthesize_verdict (findings : List Finding) : Verdict :=
  if findings.any (fun f => decide (f.severity = Severity.CRITICAL)) then
    Verdict.BLOCKED
  else if findings.any (fun f => decide (f.severity = Severity.WARNING)) then
    Verdict.CONSTRAINED
  else
    Verdict.ALLOWED

/-- Column names of the Session's dataset (empty when no dataset is loaded). -/
def sessionColumns (s : Session) : List String :=
  match s.dataset with
  | some d => d.columns
  | none => []

/-- Modelled from the spec: `load_dataset(handle)` (spec section 4.1), allowed
only from NO_SESSION; otherwise fails with InvalidStateError and leaves the
Session unchanged. -/
def load_dataset (s : Session) (handle : DatasetHandle) :
    Session × Option SessionError :=
  if s.state = SessState.NO_SESSION then
    ({ s with dataset := some handle, state := SessState.DATA_LOADED }, none)
  else
    (s, some (SessionError.InvalidStateError s.state [SessState.NO_SESSION]))

/-- Modelled from the spec: `select_target(column_name)` (spec section 4.1),
allowed from DATA_LOADED or TARGET_SELECTED; fails with UnknownColumnError when
the name is not among the dataset's columns. -/
def select_target (s : Session) (column_name : String) :
    Session × Option SessionError :=
  if s.state = SessState.DATA_LOADED ∨ s.state = SessState.TARGET_SELECTED then
    if column_name ∈ sessionColumns s then
      ({ s with target_column := some column_name
                state := SessState.TARGET_SELECTED }, none)
    else
      (s, some (SessionError.UnknownColumnError column_name))
  else
    (s, some (SessionError.InvalidStateError s.state
      [SessState.DATA_LOADED, SessState.TARGET_SELECTED]))

/-- Modelled from the spec: the outcome of the profiling pass invoked by
`run_diagnostics()`: either the classified findings, or a ProfilingFailure
(spec section 7). -/
inductive ProfilerOutcome where
  | success (findings : List Finding)
  | failure
deriving DecidableEq, Repr

/-- Modelled from the spec: the first half of `run_diagnostics()`
(spec section 4.1): from TARGET_SELECTED it transitions immediately to
DIAGNOSTICS_RUNNING, before any profiling work; any other state gives
InvalidStateError with the Session unchanged. -/
def run_begin (s : Session) : Session × Option SessionError :=
  if s.state = SessState.TARGET_SELECTED then
    ({ s with state := SessState.DIAGNOSTICS_RUNNING }, none)
  else
    (s, some (SessionError.InvalidStateError s.state
      [SessState.TARGET_SELECTED]))

/-- Modelled from the spec: the second half of `run_diagnostics()`: from
DIAGNOSTICS_RUNNING, on success it stores the findings and the synthesized
verdict and transitions to MODEL_DECIDED; on a ProfilingFailure it reverts to
TARGET_SELECTED (spec sections 4.1, 5, 7). -/
def run_finish (s : Session) (outcome : ProfilerOutcome) :
    Session × Option SessionError :=
  if s.state = SessState.DIAGNOSTICS_RUNNING then
    match outcome with
    | ProfilerOutcome.success fs =>
        ({ s with findings := fs
                  verdict := some (synthesize_verdict fs)
                  state := SessState.MODEL_DECIDED }, none)
    | ProfilerOutcome.failure =>
        ({ s with state := SessState.TARGET_SELECTED },
         some SessionError.ProfilingFailure)
  else
    (s, some (SessionError.InvalidStateError s.state
      [SessState.DIAGNOSTICS_RUNNING]))

/-- Modelled from the spec: the complete `run_diagnostics()` operation
(spec section 4.1): transition to DIAGNOSTICS_RUNNING, perform the profiling
pass, then either store findings and verdict (MODEL_DECIDED) or revert to
TARGET_SELECTED on a ProfilingFailure. -/
def run_diagnostics (s : Session) (outcome : ProfilerOutcome) :
    Session × Option SessionError :=
  match (run_begin s).2 with
  | some e => (s, some e)
  | none => run_finish (run_begin s).1 outcome

/-- Modelled from the spec: `authorize_modeling()` (spec section 4.1), allowed
only from MODEL_DECIDED; fails with PermissionDeniedError when the verdict is
BLOCKED; otherwise transitions to MODEL_EXECUTION. -/
def authorize_modeling (s : Session) : Session × Option SessionError :=
  if s.state = SessState.MODEL_DECIDED then
    if s.verdict = some Verdict.BLOCKED then
      (s, some SessionError.PermissionDeniedError)
    else
      ({ s with state := SessState.MODEL_EXECUTION }, none)
  else
    (s, some (SessionError.InvalidStateError s.state
      [SessState.MODEL_DECIDED]))

/-- Modelled from the spec: the diagnostic report returned on fetch
(spec section 6): findings plus verdict, read-only. -/
structure Report where
  findings : List Finding
  verdict : Option Verdict
deriving DecidableEq, Repr

/-- Modelled from the spec: fetching the diagnostic report (spec section 6
table): allowed from MODEL_DECIDED or later, returning the findings and
verdict read-only; any earlier state gives the "no report yet" failure.  The
first component is the Session after the call, which is always the input
Session. -/
def fetch_report (s : Session) :
    Session × Option SessionError × Option Report :=
  if s.state = SessState.MODEL_DECIDED ∨ s.state = SessState.MODEL_EXECUTION then
    (s, none, some { findings := s.findings, verdict := s.verdict })
  else
    (s, some SessionError.NoReportYet, none)

/-- Modelled from the spec: `reset()` (spec section 4.1), callable from any
state; always succeeds, clears everything and returns to NO_SESSION. -/
def reset (_s : Session) : Session × Option SessionError :=
  (initialSession, none)

/-- The public operations of the Session State Machine (spec section 6),
with the data each call carries. -/
inductive Op where
  | loadDataset (handle : DatasetHandle)
  | selectTarget (column_name : String)
  | runDiagnostics (outcome : ProfilerOutcome)
  | authorizeModeling
  | fetchReport
  | resetOp
deriving DecidableEq, Repr

/-- Apply one public operation to a Session, returning the Session after the
call and the error, if any. -/
def applyOp (s : Session) : Op → Session × Option SessionError
  | Op.loadDataset h => load_dataset s h
  | Op.selectTarget c => select_target s c
  | Op.runDiagnostics o => run_diagnostics s o
  | Op.authorizeModeling => authorize_modeling s
  | Op.fetchReport => ((fetch_report s).1, (fetch_report s).2.1)
  | Op.resetOp => reset s

/-- Micro-steps of the state machine: the public operations, with
`run_diagnostics()` split into its two internal phases so that the
DIAGNOSTICS_RUNNING state is observable mid-run. -/
inductive MicroOp where
  | loadDataset (handle : DatasetHandle)
  | selectTarget (column_name : String)
  | runBegin
  | runFinish (outcome : ProfilerOutcome)
  | authorizeModeling
  | fetchReport
  | resetOp
deriving DecidableEq, Repr

/-- Apply one micro-step, keeping only the resulting Session. -/
def applyMicro (s : Session) : MicroOp → Session
  | MicroOp.loadDataset h => (load_dataset s h).1
  | MicroOp.selectTarget c => (select_target s c).1
  | MicroOp.runBegin => (run_begin s).1
  | MicroOp.runFinish o => (run_finish s o).1
  | MicroOp.authorizeModeling => (authorize_modeling s).1
  | MicroOp.fetchReport => (fetch_report s).1
  | MicroOp.resetOp => (reset s).1

/-- Run a list of micro-steps from a Session. -/
def runMicro (s : Session) : List MicroOp → Session
  | [] => s
  | m :: ms => runMicro (applyMicro s m) ms

/-- A Session is reachable when some micro-step sequence produces it from the
initial Session. -/
def Reachable (s : Session) : Prop :=
  ∃ ms : List MicroOp, runMicro initialSession ms = s

/-- Run lifecycle steps, tracking how many diagnostic runs are in flight:
a run becomes in flight exactly when `run_begin` succeeds, and leaves flight
when its `run_finish` completes.  A failed `run_begin` changes nothing. -/
inductive DStep : Session × Nat → Session × Nat → Prop where
  | beginOk (s : Session) (n : Nat) (h : (run_begin s).2 = none) :
      DStep (s, n) ((run_begin s).1, n + 1)
  | beginFail (s : Session) (n : Nat) (e : SessionError)
      (h : (run_begin s).2 = some e) : DStep (s, n) (s, n)
  | finish (s : Session) (n : Nat) (o : ProfilerOutcome) :
      DStep (s, n + 1) ((run_finish s o).1, n)

/-- The styling record returned by the report view's `statusColor` helper
(`src/frontend/apps/web/src/app/diagnostics/layer1-report/page.tsx`). -/
structure StatusStyle where
  bg : String
  border : String
  text : String
  dot : String
deriving DecidableEq, Repr

/-- The red styling returned for CRITICAL / DANGER statuses. -/
def redStyle : StatusStyle :=
  { bg := "bg-red-500/10"
    border := "border-red-500/30"
    text := "text-red-400"
    dot := "bg-red-500" }

/-- The amber styling returned for WARNING statuses. -/
def amberStyle : StatusStyle :=
  { bg := "bg-amber-500/10"
    border := "border-amber-500/30"
    text := "text-amber-400"
    dot := "bg-amber-500" }

/-- The green styling returned for every other status. -/
def greenStyle : StatusStyle :=
  { bg := "bg-emerald-500/10"
    border := "border-emerald-500/30"
    text := "text-emerald-400"
    dot := "bg-emerald-500" }

/-- Uppercase a string character by character: the `toUpperCase()` call of
`statusColor`, written as an explicit map so it computes by kernel
reduction. -/
def upperStr (s : String) : String := String.mk (s.data.map Char.toUpper)

/-- Translation of `statusColor` from
`src/frontend/apps/web/src/app/diagnostics/layer1-report/page.tsx`
(lines 77 to 82): uppercase the status string, return the red styling for
CRITICAL or DANGER, the amber styling for WARNING, and the green styling
otherwise. -/
def statusColor (s : String) : StatusStyle :=
  let v := upperStr s
  if v = "CRITICAL" ∨ v = "DANGER" then redStyle
  else if v = "WARNING" then amberStyle
  else greenStyle

/-- A concrete dataset handle used by the witnesses. -/
def exHandle : DatasetHandle :=
  { columns := ["target", "f1"], row_count := 10, col_count := 2, memory_mb := 1 }

/-- The name of a column present in `exHandle`. -/
def tgtCol : String := "target"

/-- A column name absent from `exHandle`. -/
def badCol : String := "nonexistent_col"

/-- A concrete CRITICAL finding used by the witnesses. -/
def findCrit : Finding :=
  { check_name := "missingness"
    category := "missingness"
    severity := Severity.CRITICAL
    metric := 1
    affected_columns := []
    details := "all cells missing" }

/-- A concrete WARNING finding used by the witnesses. -/
def findWarn : Finding :=
  { check_name := "duplication"
    category := "duplication"
    severity := Severity.WARNING
    metric := 1/10
    affected_columns := []
    details := "duplicate rows" }

/-- A concrete SAFE finding used by the witnesses. -/
def findSafe : Finding :=
  { check_name := "constant_features"
    category := "constant-features"
    severity := Severity.SAFE
    metric := 0
    affected_columns := []
    details := "no constant columns" }

/-- A concrete Session in state TARGET_SELECTED used by the witnesses. -/
def sessTS : Session :=
  { state := SessState.TARGET_SELECTED
    dataset := some exHandle
    target_column := some "target"
    findings := []
    verdict := none }

/-- A concrete Session in state DATA_LOADED used by the witnesses. -/
def sessDL : Session :=
  { state := SessState.DATA_LOADED
    dataset := some exHandle
    target_column := none
    findings := []
    verdict := none }

/-- A concrete Session in state MODEL_DECIDED used by the witnesses. -/
def sessMD : Session :=
  { state := SessState.MODEL_DECIDED
    dataset := some exHandle
    target_column := some "target"
    findings := [findSafe]
    verdict := some Verdict.ALLOWED }

/-- Overwriting `state` with its current value leaves the Session unchanged. -/
theorem setState_self (s : Session) (st : SessState) (h : s.state = st) :
    { s with state := st } = s := by
  cases s
  cases h
  rfl

/-- Claim C1: verdict synthesis is a pure function of the Finding severities,
evaluated in strict priority order: any CRITICAL finding gives BLOCKED
regardless of the other findings; otherwise any WARNING finding gives
CONSTRAINED; otherwise (all findings SAFE) the verdict is ALLOWED. -/
theorem synthesize_verdict_priority (fs : List Finding) :
    ((∃ f ∈ fs, f.severity = Severity.CRITICAL) →
        synthesize_verdict fs = Verdict.BLOCKED)
  ∧ ((¬ ∃ f ∈ fs, f.severity = Severity.CRITICAL) →
        (∃ f ∈ fs, f.severity = Severity.WARNING) →
        synthesize_verdict fs = Verdict.CONSTRAINED)
  ∧ ((∀ f ∈ fs, f.severity = Severity.SAFE) →
        synthesize_verdict fs = Verdict.ALLOWED) := by
  refine ⟨?_, ?_, ?_⟩
  · rintro ⟨f, hf, hs⟩
    have hc : fs.any (fun f => decide (f.severity = Severity.CRITICAL)) = true :=
      List.any_eq_true.mpr ⟨f, hf, by simp [hs]⟩
    simp [synthesize_verdict, hc]
  · intro hnc hw
    obtain ⟨f, hf, hs⟩ := hw
    have hc : fs.any (fun f => decide (f.severity = Severity.CRITICAL)) = false := by
      apply List.any_eq_false.mpr
      intro g hg
      simp only [decide_eq_true_eq]
      exact fun hgc => hnc ⟨g, hg, hgc⟩
    have hwa : fs.any (fun f => decide (f.severity = Severity.WARNING)) = true :=
      List.any_eq_true.mpr ⟨f, hf, by simp [hs]⟩
    simp [synthesize_verdict, hc, hwa]
  · intro hall
    have hc : fs.any (fun f => decide (f.severity = Severity.CRITICAL)) = false := by
      apply List.any_eq_false.mpr
      intro g hg
      simp [hall g hg]
    have hw : fs.any (fun f => decide (f.severity = Severity.WARNING)) = false := by
      apply List.any_eq_false.mpr
      intro g hg
      simp [hall g hg]
    simp [synthesize_verdict, hc, hw]

/-- Witness for C1 at concrete findings: a list with a CRITICAL finding is
BLOCKED, one with a WARNING but no CRITICAL is CONSTRAINED, an all-SAFE one is
ALLOWED. -/
theorem synthesize_verdict_priority_witness :
    synthesize_verdict [findCrit, findWarn, findSafe] = Verdict.BLOCKED
  ∧ synthesize_verdict [findWarn, findSafe] = Verdict.CONSTRAINED
  ∧ synthesize_verdict [findSafe] = Verdict.ALLOWED :=
  ⟨(synthesize_verdict_priority [findCrit, findWarn, findSafe]).1
      ⟨findCrit, by simp, rfl⟩,
   (synthesize_verdict_priority [findWarn, findSafe]).2.1
      (by decide) ⟨findWarn, by simp, rfl⟩,
   (synthesize_verdict_priority [findSafe]).2.2 (by decide)⟩

/-- Claim C9: verdict synthesis is total; the empty Finding sequence yields
ALLOWED (vacuously safe) as a valid, degenerate result rather than an error. -/
theorem synthesize_verdict_empty : synthesize_verdict [] = Verdict.ALLOWED := by
  decide

/-- Claim C2: for every operation that fails, the Session after the failed
operation equals the Session before it, so in particular its state is
unchanged and no field is partially updated. -/
theorem failed_op_leaves_session_unchanged (s : Session) (o : Op)
    (e : SessionError) (h : (applyOp s o).2 = some e) : (applyOp s o).1 = s := by
  cases o with
  | loadDataset hd =>
      by_cases hs : s.state = SessState.NO_SESSION <;>
        simp [applyOp, load_dataset, hs] at h ⊢
  | selectTarget c =>
      by_cases hs : s.state = SessState.DATA_LOADED ∨
          s.state = SessState.TARGET_SELECTED
      · by_cases hc : c ∈ sessionColumns s <;>
          simp [applyOp, select_target, hs, hc] at h ⊢
      · simp [applyOp, select_target, hs]
  | runDiagnostics o =>
      obtain ⟨st, ds, tc, fnd, vd⟩ := s
      by_cases hs : st = SessState.TARGET_SELECTED
      · subst hs
        cases o with
        | success fs =>
            simp [applyOp, run_diagnostics, run_begin, run_finish] at h
        | failure =>
            simp [applyOp, run_diagnostics, run_begin, run_finish]
      · simp [applyOp, run_diagnostics, run_begin, hs]
  | authorizeModeling =>
      by_cases hs : s.state = SessState.MODEL_DECIDED
      · by_cases hv : s.verdict = some Verdict.BLOCKED <;>
          simp [applyOp, authorize_modeling, hs, hv] at h ⊢
      · simp [applyOp, authorize_modeling, hs]
  | fetchReport =>
      by_cases hs : s.state = SessState.MODEL_DECIDED ∨
          s.state = SessState.MODEL_EXECUTION <;>
        simp [applyOp, fetch_report, hs]
  | resetOp => simp [applyOp, reset] at h

/-- Witness for C2: selecting a target from the initial Session fails (wrong
state) and leaves the Session unchanged. -/
theorem failed_op_leaves_session_unchanged_witness :
    (applyOp initialSession (Op.selectTarget badCol)).1 = initialSession :=
  failed_op_leaves_session_unchanged initialSession (Op.selectTarget badCol)
    (SessionError.InvalidStateError SessState.NO_SESSION
      [SessState.DATA_LOADED, SessState.TARGET_SELECTED]) (by decide)

/-- One `DStep` preserves the run-count invariant: the number of in-flight
diagnostic runs is one exactly when the Session is in DIAGNOSTICS_RUNNING and
zero otherwise. -/
theorem dstep_inv {p q : Session × Nat} (h : DStep p q)
    (hp : p.2 = if p.1.state = SessState.DIAGNOSTICS_RUNNING then 1 else 0) :
    q.2 = if q.1.state = SessState.DIAGNOSTICS_RUNNING then 1 else 0 := by
  cases h with
  | beginOk s n hnone =>
      by_cases hs : s.state = SessState.TARGET_SELECTED
      · simp only at hp
        simp [run_begin, hs] at hp ⊢
        omega
      · simp [run_begin, hs] at hnone
  | beginFail s n e he => exact hp
  | finish s n o =>
      by_cases hs : s.state = SessState.DIAGNOSTICS_RUNNING
      · cases o with
        | success fs => simp [run_finish, hs] at hp ⊢; omega
        | failure => simp [run_finish, hs] at hp ⊢; omega
      · simp [hs] at hp

/-- Claim C3: `run_diagnostics` transitions the Session into
DIAGNOSTICS_RUNNING before performing any profiling work (its first phase does
no work beyond the transition); a second invocation while a run is in progress
observes the non-matching DIAGNOSTICS_RUNNING state and fails fast with
InvalidStateError, leaving the Session unchanged; and along any sequence of
run lifecycle steps started with no run in flight, at most one diagnostic run
is ever in flight, so a state with two concurrently executing runs is never
reachable. -/
theorem run_diagnostics_guard :
    (∀ s : Session, s.state = SessState.TARGET_SELECTED →
        (run_begin s).1.state = SessState.DIAGNOSTICS_RUNNING ∧
        (run_begin s).2 = none)
  ∧ (∀ s : Session, s.state = SessState.DIAGNOSTICS_RUNNING →
        run_begin s = (s, some (SessionError.InvalidStateError
          SessState.DIAGNOSTICS_RUNNING [SessState.TARGET_SELECTED])))
  ∧ (∀ (s : Session) (p : Session × Nat),
        s.state ≠ SessState.DIAGNOSTICS_RUNNING →
        Relation.ReflTransGen DStep (s, 0) p → p.2 ≤ 1) := by
  refine ⟨?_, ?_, ?_⟩
  · intro s hs
    simp [run_begin, hs]
  · intro s hs
    simp [run_begin, hs]
  · intro s p hs hreach
    have hinv : p.2 = if p.1.state = SessState.DIAGNOSTICS_RUNNING
        then 1 else 0 := by
      induction hreach with
      | refl => simp [hs]
      | tail _hab hbc ih => exact dstep_inv hbc ih
    rw [hinv]
    split <;> omega

/-- Witness for C3: from the concrete TARGET_SELECTED Session, the first phase
moves into DIAGNOSTICS_RUNNING with no error, the second invocation from the
running Session fails with InvalidStateError, and zero steps keep at most one
run in flight. -/
theorem run_diagnostics_guard_witness :
    ((run_begin sessTS).1.state = SessState.DIAGNOSTICS_RUNNING ∧
      (run_begin sessTS).2 = none)
  ∧ run_begin (run_begin sessTS).1 =
      ((run_begin sessTS).1, some (SessionError.InvalidStateError
        SessState.DIAGNOSTICS_RUNNING [SessState.TARGET_SELECTED]))
  ∧ ((sessTS, 0) : Session × Nat).2 ≤ 1 :=
  ⟨run_diagnostics_guard.1 sessTS (by decide),
   run_diagnostics_guard.2.1 (run_begin sessTS).1 (by decide),
   run_diagnostics_guard.2.2 sessTS (sessTS, 0) (by decide)
     Relation.ReflTransGen.refl⟩

/-- Claim C4: every public operation other than `reset` either leaves the
Session state unchanged or advances it strictly forward along
NO_SESSION < DATA_LOADED < TARGET_SELECTED < DIAGNOSTICS_RUNNING <
MODEL_DECIDED < MODEL_EXECUTION; any operation that moves the state backward
is `reset`; and every state of the closed `SessState` enumeration is
reachable, so the reachable states are exactly that enumeration. -/
theorem forward_only_states :
    (∀ (s : Session) (o : Op), o ≠ Op.resetOp →
        (applyOp s o).1.state = s.state ∨
        s.state.idx < (applyOp s o).1.state.idx)
  ∧ (∀ (s : Session) (o : Op),
        (applyOp s o).1.state.idx < s.state.idx → o = Op.resetOp)
  ∧ (∀ st : SessState, ∃ s : Session, Reachable s ∧ s.state = st) := by
  have main : ∀ (s : Session) (o : Op), o ≠ Op.resetOp →
      (applyOp s o).1.state = s.state ∨
      s.state.idx < (applyOp s o).1.state.idx := by
    intro s o ho
    cases o with
    | loadDataset hd =>
        by_cases hs : s.state = SessState.NO_SESSION
        · right
          simp [applyOp, load_dataset, hs, SessState.idx]
        · left
          simp [applyOp, load_dataset, hs]
    | selectTarget c =>
        by_cases hs : s.state = SessState.DATA_LOADED ∨
            s.state = SessState.TARGET_SELECTED
        · by_cases hc : c ∈ sessionColumns s
          · cases hs with
            | inl hdl =>
                right
                simp [applyOp, select_target, hdl, hc, SessState.idx]
            | inr hts =>
                left
                simp [applyOp, select_target, hts, hc]
          · left
            simp [applyOp, select_target, hs, hc]
        · left
          simp [applyOp, select_target, hs]
    | runDiagnostics o =>
        obtain ⟨st, ds, tc, fnd, vd⟩ := s
        by_cases hs : st = SessState.TARGET_SELECTED
        · subst hs
          cases o with
          | success fs =>
              right
              simp [applyOp, run_diagnostics, run_begin, run_finish,
                SessState.idx]
          | failure =>
              left
              simp [applyOp, run_diagnostics, run_begin, run_finish]
        · left
          simp [applyOp, run_diagnostics, run_begin, hs]
    | authorizeModeling =>
        by_cases hs : s.state = SessState.MODEL_DECIDED
        · by_cases hv : s.verdict = some Verdict.BLOCKED
          · left
            simp [applyOp, authorize_modeling, hs, hv]
          · right
            simp [applyOp, authorize_modeling, hs, hv, SessState.idx]
        · left
          simp [applyOp, authorize_modeling, hs]
    | fetchReport =>
        left
        by_cases hs : s.state = SessState.MODEL_DECIDED ∨
            s.state = SessState.MODEL_EXECUTION <;>
          simp [applyOp, fetch_report, hs]
    | resetOp => exact absurd rfl ho
  refine ⟨main, ?_, ?_⟩
  · intro s o hlt
    by_contra ho
    rcases main s o ho with heq | hadv
    · rw [heq] at hlt
      omega
    · omega
  · intro st
    cases st with
    | NO_SESSION => exact ⟨initialSession, ⟨[], rfl⟩, rfl⟩
    | DATA_LOADED =>
        exact ⟨runMicro initialSession [MicroOp.loadDataset exHandle],
          ⟨[MicroOp.loadDataset exHandle], rfl⟩, by decide⟩
    | TARGET_SELECTED =>
        exact ⟨runMicro initialSession
            [MicroOp.loadDataset exHandle, MicroOp.selectTarget tgtCol],
          ⟨[MicroOp.loadDataset exHandle, MicroOp.selectTarget tgtCol], rfl⟩,
          by decide⟩
    | DIAGNOSTICS_RUNNING =>
        exact ⟨runMicro initialSession [MicroOp.loadDataset exHandle,
            MicroOp.selectTarget tgtCol, MicroOp.runBegin],
          ⟨[MicroOp.loadDataset exHandle, MicroOp.selectTarget tgtCol,
            MicroOp.runBegin], rfl⟩, by decide⟩
    | MODEL_DECIDED =>
        exact ⟨runMicro initialSession [MicroOp.loadDataset exHandle,
            MicroOp.selectTarget tgtCol, MicroOp.runBegin,
            MicroOp.runFinish (ProfilerOutcome.success [])],
          ⟨[MicroOp.loadDataset exHandle, MicroOp.selectTarget tgtCol,
            MicroOp.runBegin,
            MicroOp.runFinish (ProfilerOutcome.success [])], rfl⟩, by decide⟩
    | MODEL_EXECUTION =>
        exact ⟨runMicro initialSession [MicroOp.loadDataset exHandle,
            MicroOp.selectTarget tgtCol, MicroOp.runBegin,
            MicroOp.runFinish (ProfilerOutcome.success []),
            MicroOp.authorizeModeling],
          ⟨[MicroOp.loadDataset exHandle, MicroOp.selectTarget tgtCol,
            MicroOp.runBegin,
            MicroOp.runFinish (ProfilerOutcome.success []),
            MicroOp.authorizeModeling], rfl⟩, by decide⟩

/-- Witness for C4: loading a dataset into the initial Session advances its
state (it is not an unchanged-state case), and backward movement never happens
for it. -/
theorem forward_only_states_witness :
    ((applyOp initialSession (Op.loadDataset exHandle)).1.state =
        initialSession.state ∨
      initialSession.state.idx <
        (applyOp initialSession (Op.loadDataset exHandle)).1.state.idx)
  ∧ (∃ s : Session, Reachable s ∧ s.state = SessState.MODEL_EXECUTION) :=
  ⟨forward_only_states.1 initialSession (Op.loadDataset exHandle) (by decide),
   forward_only_states.2.2 SessState.MODEL_EXECUTION⟩

/-- Claim C5: when the profiler fails during a diagnostic run, the
ProfilingFailure is surfaced to the caller and the Session is reverted to
TARGET_SELECTED (in fact left exactly as it was), so it is never left in
DIAGNOSTICS_RUNNING, a retry of diagnostics is possible, and findings and
verdict are not half-populated. -/
theorem profiling_failure_reverts (s : Session)
    (h : s.state = SessState.TARGET_SELECTED) :
    run_diagnostics s ProfilerOutcome.failure =
      (s, some SessionError.ProfilingFailure)
  ∧ (run_diagnostics s ProfilerOutcome.failure).1.state =
      SessState.TARGET_SELECTED
  ∧ (run_diagnostics s ProfilerOutcome.failure).1.state ≠
      SessState.DIAGNOSTICS_RUNNING
  ∧ (run_begin (run_diagnostics s ProfilerOutcome.failure).1).2 = none
  ∧ (run_diagnostics s ProfilerOutcome.failure).1.findings = s.findings
  ∧ (run_diagnostics s ProfilerOutcome.failure).1.verdict = s.verdict := by
  have key : run_diagnostics s ProfilerOutcome.failure =
      (s, some SessionError.ProfilingFailure) := by
    obtain ⟨st, ds, tc, fnd, vd⟩ := s
    simp only at h
    subst h
    simp [run_diagnostics, run_begin, run_finish]
  refine ⟨key, ?_, ?_, ?_, ?_, ?_⟩ <;> rw [key]
  · exact h
  · simp [h]
  · simp [run_begin, h]

/-- Witness for C5: a failed run from the concrete TARGET_SELECTED Session
surfaces ProfilingFailure and returns the Session unchanged. -/
theorem profiling_failure_reverts_witness :
    run_diagnostics sessTS ProfilerOutcome.failure =
      (sessTS, some SessionError.ProfilingFailure) :=
  (profiling_failure_reverts sessTS (by decide)).1

/-- Claim C6: from DATA_LOADED, `select_target` with a column name not among
the dataset's columns fails with UnknownColumnError and leaves the Session
unchanged (target not set, state still DATA_LOADED); with a valid column it
succeeds, sets the target column and transitions to TARGET_SELECTED; and it
succeeds only when the column is valid. -/
theorem select_target_unknown_column :
    (∀ (s : Session) (c : String), s.state = SessState.DATA_LOADED →
        c ∉ sessionColumns s →
        select_target s c = (s, some (SessionError.UnknownColumnError c)))
  ∧ (∀ (s : Session) (c : String), s.state = SessState.DATA_LOADED →
        c ∈ sessionColumns s →
        (select_target s c).2 = none ∧
        (select_target s c).1.state = SessState.TARGET_SELECTED ∧
        (select_target s c).1.target_column = some c)
  ∧ (∀ (s : Session) (c : String), (select_target s c).2 = none →
        c ∈ sessionColumns s ∧
        (select_target s c).1.state = SessState.TARGET_SELECTED) := by
  refine ⟨?_, ?_, ?_⟩
  · intro s c hs hc
    simp [select_target, hs, hc]
  · intro s c hs hc
    simp [select_target, hs, hc]
  · intro s c h
    by_cases hs : s.state = SessState.DATA_LOADED ∨
        s.state = SessState.TARGET_SELECTED
    · by_cases hc : c ∈ sessionColumns s
      · exact ⟨hc, by simp [select_target, hs, hc]⟩
      · simp [select_target, hs, hc] at h
    · simp [select_target, hs] at h

/-- Witness for C6: from the concrete DATA_LOADED Session, a nonexistent
column fails with UnknownColumnError leaving the Session unchanged, and a
valid column succeeds, setting the target and reaching TARGET_SELECTED. -/
theorem select_target_unknown_column_witness :
    select_target sessDL badCol =
      (sessDL, some (SessionError.UnknownColumnError badCol))
  ∧ ((select_target sessDL tgtCol).2 = none ∧
      (select_target sessDL tgtCol).1.state = SessState.TARGET_SELECTED ∧
      (select_target sessDL tgtCol).1.target_column = some tgtCol) :=
  ⟨select_target_unknown_column.1 sessDL badCol (by decide) (by decide),
   select_target_unknown_column.2.1 sessDL tgtCol (by decide) (by decide)⟩

/-- Claim C7: `reset` invoked from any Session always succeeds and yields the
initial Session: state NO_SESSION with dataset, target column, findings and
verdict all unset, whatever the prior state and field contents. -/
theorem reset_clears_session (s : Session) :
    applyOp s Op.resetOp = (initialSession, none)
  ∧ (applyOp s Op.resetOp).1.state = SessState.NO_SESSION
  ∧ (applyOp s Op.resetOp).1.dataset = none
  ∧ (applyOp s Op.resetOp).1.target_column = none
  ∧ (applyOp s Op.resetOp).1.findings = []
  ∧ (applyOp s Op.resetOp).1.verdict = none :=
  ⟨rfl, rfl, rfl, rfl, rfl, rfl⟩

/-- Claim C8: fetching the diagnostic report never mutates the Session; it
succeeds exactly in MODEL_DECIDED or later, returning the findings and
verdict, and in any earlier state fails with the "no report yet" outcome. -/
theorem fetch_report_read_only (s : Session) :
    (fetch_report s).1 = s
  ∧ ((s.state = SessState.MODEL_DECIDED ∨
        s.state = SessState.MODEL_EXECUTION) →
      fetch_report s =
        (s, none, some { findings := s.findings, verdict := s.verdict }))
  ∧ (¬ (s.state = SessState.MODEL_DECIDED ∨
        s.state = SessState.MODEL_EXECUTION) →
      fetch_report s = (s, some SessionError.NoReportYet, none)) := by
  refine ⟨?_, ?_, ?_⟩
  · by_cases hs : s.state = SessState.MODEL_DECIDED ∨
        s.state = SessState.MODEL_EXECUTION <;>
      simp [fetch_report, hs]
  · intro hs
    simp [fetch_report, hs]
  · intro hs
    simp [fetch_report, hs]

/-- Witness for C8: the concrete MODEL_DECIDED Session yields its findings and
verdict read-only, and the initial Session yields the "no report yet"
failure. -/
theorem fetch_report_read_only_witness :
    fetch_report sessMD =
      (sessMD, none, some { findings := sessMD.findings
                            verdict := sessMD.verdict })
  ∧ fetch_report initialSession =
      (initialSession, some SessionError.NoReportYet, none) :=
  ⟨(fetch_report_read_only sessMD).2.1 (by decide),
   (fetch_report_read_only initialSession).2.2 (by decide)⟩

/-- Claim C10: the report view's `statusColor` uppercases the overall-status
string and returns the red styling exactly when it equals CRITICAL or DANGER,
the amber styling exactly when it equals WARNING, and for every other string
(severity matching is case-insensitive and defaults to safe) the green
styling. -/
theorem statusColor_cases (s : String) :
    (statusColor s = redStyle ↔
      (upperStr s = "CRITICAL" ∨ upperStr s = "DANGER"))
  ∧ (statusColor s = amberStyle ↔ upperStr s = "WARNING")
  ∧ (upperStr s ≠ "CRITICAL" → upperStr s ≠ "DANGER" →
      upperStr s ≠ "WARNING" → statusColor s = greenStyle) := by
  by_cases hC : upperStr s = "CRITICAL" <;>
    by_cases hD : upperStr s = "DANGER" <;>
      by_cases hW : upperStr s = "WARNING" <;>
        simp [statusColor, redStyle, amberStyle, greenStyle, hC, hD, hW]

/-- A lowercase severity string used by the C10 witness. -/
def strCritLower : String := "critical"

/-- An unexpected severity string used by the C10 witness. -/
def strSafe : String := "Safe"

/-- Witness for C10: the lowercase string yields the red styling (matching is
case-insensitive) and the unexpected severity SAFE falls through to the green
styling. -/
theorem statusColor_cases_witness :
    statusColor strCritLower = redStyle ∧ statusColor strSafe = greenStyle :=
  ⟨(statusColor_cases strCritLower).1.mpr (by decide),
   (statusColor_cases strSafe).2.2 (by decide) (by decide) (by decide)⟩

